import Mathlib

/-!
Shallow embedding of the weather ingestion and aggregation pipeline
(`src/ingest_weather.py`, `src/compute_stats.py`, `src/app/ingest_weather.py`).

Strings are modelled as `List Char`; Python floats are modelled as `ℚ`
(the claims under study concern the exact arithmetic of the unit
conversions and aggregates, not IEEE rounding); SQL NULL is `Option`.
-/

set_option autoImplicit false

namespace Weather

/-- Whitespace characters recognised by Python `str.strip()` (ASCII range). -/
def pyIsSpace (c : Char) : Bool :=
  c = ' ' || c = '\t' || c = '\n' || c = '\r' || c = Char.ofNat 11 || c = Char.ofNat 12

/-- Embeds Python `str.strip()`: drop leading and trailing whitespace. -/
def pyStrip (s : List Char) : List Char :=
  ((s.dropWhile pyIsSpace).reverse.dropWhile pyIsSpace).reverse

/-- Decimal digit test; embeds `str.isdigit()` on the ASCII strings the
pipeline handles. -/
def isDigitChar (c : Char) : Bool :=
  c.isDigit

/-- Value of a list of decimal digits, most significant first. -/
def digitsToNat (l : List Char) : Nat :=
  l.foldl (fun n c => n * 10 + (c.toNat - 48)) 0

/-- Embeds Python `int(x)` on an already-stripped string: an optional sign
followed by at least one decimal digit, else a `ValueError` (`none`).
`int()`'s own whitespace stripping cannot fire in `_parse_int`, which strips
first, so it is not modelled; underscore digit separators are out of scope. -/
def pyIntCore (l : List Char) : Option Int :=
  match l with
  | '-' :: rest =>
      if rest ≠ [] ∧ rest.all isDigitChar then some (-(digitsToNat rest : Int)) else none
  | '+' :: rest =>
      if rest ≠ [] ∧ rest.all isDigitChar then some ((digitsToNat rest : Int)) else none
  | _ =>
      if l ≠ [] ∧ l.all isDigitChar then some ((digitsToNat l : Int)) else none

/-- The sentinel string "-9999" as characters. -/
def sentinelChars : List Char :=
  ['-', '9', '9', '9', '9']

/-- Embeds `_parse_int` from `src/ingest_weather.py`: strip, map empty and
the sentinel to `None`, otherwise `int(x)` with `ValueError` caught to `None`. -/
def _parse_int (x : List Char) : Option Int :=
  let x' := pyStrip x
  if x' = [] then none
  else if x' = sentinelChars then none
  else pyIntCore x'

/-- Embeds the temperature conversion in `main`:
`None if tmax_i is None else tmax_i / 10.0`. -/
def tempOfRaw (i : Option Int) : Option ℚ :=
  i.map (fun n => (n : ℚ) / 10)

/-- Embeds the precipitation conversion in `main`:
`None if prcp_i is None else (prcp_i / 10.0) / 10.0` (tenths mm → mm → cm). -/
def precipOfRaw (i : Option Int) : Option ℚ :=
  i.map (fun n => ((n : ℚ) / 10) / 10)

/-- One parsed-and-converted row, as appended to `batch` in `main`
(station id, formatted date string, and the three converted measurements). -/
structure RawRow where
  station : List Char
  obs_date : List Char
  max_temp_c : Option ℚ
  min_temp_c : Option ℚ
  precip_cm : Option ℚ
deriving DecidableEq

/-- Embeds `line.rstrip("\n")`: drop trailing newline characters. -/
def rstripNL (s : List Char) : List Char :=
  (s.reverse.dropWhile (fun c => c = '\n')).reverse

/-- Embeds the date reformatting
`f"{datestr[0:4]}-{datestr[4:6]}-{datestr[6:8]}"`. -/
def fmtDate (d : List Char) : List Char :=
  d.take 4 ++ '-' :: ((d.drop 4).take 2 ++ '-' :: (d.drop 6).take 2)

/-- Embeds the per-line parse in `main` (`src/ingest_weather.py` lines
105–128): split on tabs, reject short lines, reject a stripped date field
that is not exactly 8 digits, otherwise build the converted row. -/
def parseLine (station line : List Char) : Option RawRow :=
  let parts := (rstripNL line).splitOn '\t'
  if parts.length < 4 then none
  else
    let datestr := pyStrip (parts.getD 0 [])
    if decide (datestr.length = 8) && datestr.all isDigitChar then
      some { station := station
             obs_date := fmtDate datestr
             max_temp_c := tempOfRaw (_parse_int (parts.getD 1 []))
             min_temp_c := tempOfRaw (_parse_int (parts.getD 2 []))
             precip_cm := precipOfRaw (_parse_int (parts.getD 3 [])) }
    else none

/-- The reject condition of the code, as a standalone predicate: fewer than
4 tab-separated fields, or a first field that after stripping is not exactly
8 decimal digits. -/
def lineRejected (line : List Char) : Bool :=
  let parts := (rstripNL line).splitOn '\t'
  let datestr := pyStrip (parts.getD 0 [])
  decide (parts.length < 4) || !(decide (datestr.length = 8) && datestr.all isDigitChar)

/-- The measurement fields of one stored `weather` row (the non-key columns
of the `Weather` model in `src/app/models.py`). -/
structure Obs where
  max_temp_c : Option ℚ
  min_temp_c : Option ℚ
  precip_cm : Option ℚ
deriving DecidableEq

/-- Natural key of a `weather` row: `(station_id, date)`, unique by
`uq_weather_station_date` in `src/app/models.py`. -/
def ObsKey : Type :=
  List Char × List Char

instance : DecidableEq ObsKey :=
  instDecidableEqProd

/-- The `weather` table, abstracted by its unique key: at most one row per
`(station_id, date)`. -/
def WeatherDB : Type :=
  ObsKey → Option Obs

/-- Embeds one row of `upsert_sql` in `src/ingest_weather.py`:
`INSERT ... ON CONFLICT (station_id, date) DO UPDATE SET` all three
measurement columns to the incoming (`EXCLUDED`) values. -/
def upsertUpdate (db : WeatherDB) (k : ObsKey) (v : Obs) : WeatherDB :=
  fun k' => if k' = k then some v else db k'

/-- Embeds one row of the insert in `ingest_weather`
(`src/app/ingest_weather.py`): `ON CONFLICT DO NOTHING` on
`(station_id, date)` — an existing row is kept unchanged. -/
def upsertNothing (db : WeatherDB) (k : ObsKey) (v : Obs) : WeatherDB :=
  fun k' =>
    if k' = k then
      match db k with
      | some o => some o
      | none => some v
    else db k'

/-- Apply a whole list of rows through the `DO UPDATE` upsert, in order. -/
def applyUpdates (db : WeatherDB) (rows : List (ObsKey × Obs)) : WeatherDB :=
  rows.foldl (fun d p => upsertUpdate d p.1 p.2) db

/-- Apply a whole list of rows through the `DO NOTHING` insert, in order. -/
def applyNothings (db : WeatherDB) (rows : List (ObsKey × Obs)) : WeatherDB :=
  rows.foldl (fun d p => upsertNothing d p.1 p.2) db

/-- `some` of the rightmost value written for key `k` in `rows`, else `none`. -/
def lastWrite (k : ObsKey) : List (ObsKey × Obs) → Option Obs
  | [] => none
  | r :: rs =>
      match lastWrite k rs with
      | some v => some v
      | none => if r.1 = k then some r.2 else none

/-- `some` of the leftmost value written for key `k` in `rows`, else `none`. -/
def firstWrite (k : ObsKey) : List (ObsKey × Obs) → Option Obs
  | [] => none
  | r :: rs => if r.1 = k then some r.2 else firstWrite k rs

/-- Key/value view of a parsed row, as the `weather` table stores it. -/
def rowKV (r : RawRow) : ObsKey × Obs :=
  ((r.station, r.obs_date), ⟨r.max_temp_c, r.min_temp_c, r.precip_cm⟩)

/-- The rows one ingestion run writes, obtained by parsing the stream of
`(station_id, line)` pairs read from the input files, in order. -/
def rowsOfLines (lines : List (List Char × List Char)) : List (ObsKey × Obs) :=
  (lines.filterMap (fun p => parseLine p.1 p.2)).map rowKV

/-- Number of occupied keys of `db` among the candidate keys `ks`. -/
def countRows (ks : List ObsKey) (db : WeatherDB) : Nat :=
  ks.countP (fun k => (db k).isSome)

/-- Counters and buffer of the ingestion loop in `main`
(`src/ingest_weather.py`): `total_lines`, `upserts`, `skipped_bad_lines`,
the in-memory `batch`, and the sequence of batches flushed so far. -/
structure IngestState where
  totalLines : Nat
  upserts : Nat
  skipped : Nat
  batch : List RawRow
  flushed : List (List RawRow)
deriving DecidableEq

/-- The state at `main`'s entry: all counters zero, empty buffer. -/
def initState : IngestState :=
  ⟨0, 0, 0, [], []⟩

/-- Embeds one iteration of the line loop in `main`: count the line, skip
it if rejected, else append the parsed row to `batch` and, when
`len(batch) >= COMMIT_EVERY`, flush the batch and clear the buffer. -/
def stepLine (ce : Nat) (st : IngestState) (p : List Char × List Char) : IngestState :=
  match parseLine p.1 p.2 with
  | none =>
      { st with totalLines := st.totalLines + 1, skipped := st.skipped + 1 }
  | some row =>
      let batch' := st.batch ++ [row]
      if ce ≤ batch'.length then
        { st with
            totalLines := st.totalLines + 1
            batch := []
            flushed := st.flushed ++ [batch']
            upserts := st.upserts + batch'.length }
      else
        { st with totalLines := st.totalLines + 1, batch := batch' }

/-- The line loop of `main` over a stream of `(station_id, line)` pairs. -/
def ingestLoop (ce : Nat) (st : IngestState) (lines : List (List Char × List Char)) : IngestState :=
  lines.foldl (stepLine ce) st

/-- Embeds the final flush in `main`: `if batch:` flush it and clear. -/
def finishRun (st : IngestState) : IngestState :=
  if st.batch = [] then st
  else
    { st with
        batch := []
        flushed := st.flushed ++ [st.batch]
        upserts := st.upserts + st.batch.length }

/-- A whole ingestion pass of `main` over the concatenated input lines. -/
def runIngest (ce : Nat) (lines : List (List Char × List Char)) : IngestState :=
  finishRun (ingestLoop ce initState lines)

/-- Embeds the skip test in `main` (`src/ingest_weather.py` lines 65–73):
return early iff `existing > 0 and not FORCE_INGEST`, where `existing` is
the row count of the `weather` table. -/
def scriptShouldSkip (forceIngest : Bool) (weatherCount : Nat) : Bool :=
  decide (0 < weatherCount) && !forceIngest

/-- Embeds the parsing of the `FORCE_INGEST` environment variable
(line 36): stripped, lowercased value in the set \x7b"1","true","yes","y"\x7d. -/
def forceFlagOf (s : List Char) : Bool :=
  let t := (pyStrip s).map Char.toLower
  t = ['1'] || t = ['t', 'r', 'u', 'e'] || t = ['y', 'e', 's'] || t = ['y']

/-- Embeds `already_ingested` (`src/app/ingest_weather.py` lines 71–94):
if the marker row exists, return its boolean value; otherwise fall back to
requiring rows in BOTH the `Weather` and the `WeatherStats` tables.
`marker = some b` models an `ingestion_state` row with `value = b`. -/
def already_ingested (marker : Option Bool) (weatherCount statsCount : Nat) : Bool :=
  match marker with
  | some b => b
  | none => decide (0 < weatherCount) && decide (0 < statsCount)

/-- Follows the spec's words for claim C5 (not the code): with no marker
row and the force flag unset, skip exactly when the Observation store
already holds at least one row, consulting that store only. -/
def specSkipNoMarker (weatherCount : Nat) : Bool :=
  decide (0 < weatherCount)

deriving instance DecidableEq for Except

/-- Outcomes of the storage operations `run_startup_ingestion` performs,
in program order; `Except.error e` models a `SQLAlchemyError` carrying an
error identity `e` that the code re-raises. -/
structure DbOutcomes where
  alreadyRes : Except Nat Bool
  ingestWRes : Except Nat Nat
  ingestSRes : Except Nat Nat
  markRes : Except Nat Unit
deriving DecidableEq

/-- Observable result of one `run_startup_ingestion` call: the propagated
outcome, whether `session.rollback()` ran, whether the session was closed,
and whether the completion marker was durably written with `value=True`. -/
structure RunResult where
  outcome : Except Nat Unit
  rolledBack : Bool
  closed : Bool
  markerWritten : Bool
deriving DecidableEq

/-- Embeds `run_startup_ingestion` (`src/app/ingest_weather.py` lines
188–231): guard check, the two idempotent inserts, `mark_ingested`; a
`SQLAlchemyError` anywhere triggers `session.rollback()` and is re-raised;
the `finally` block closes the session on every path. -/
def run_startup_ingestion (o : DbOutcomes) : RunResult :=
  match o.alreadyRes with
  | Except.error e => ⟨Except.error e, true, true, false⟩
  | Except.ok true => ⟨Except.ok (), false, true, false⟩
  | Except.ok false =>
      match o.ingestWRes with
      | Except.error e => ⟨Except.error e, true, true, false⟩
      | Except.ok _ =>
          match o.ingestSRes with
          | Except.error e => ⟨Except.error e, true, true, false⟩
          | Except.ok _ =>
              match o.markRes with
              | Except.error e => ⟨Except.error e, true, true, false⟩
              | Except.ok _ => ⟨Except.ok (), false, true, true⟩

/-- A calendar date as stored in the `weather.date` column. -/
structure PDate where
  year : Int
  month : Nat
  day : Nat
deriving DecidableEq

/-- One stored `weather` row as the aggregation query reads it. -/
structure WeatherRow where
  station_id : List Char
  pdate : PDate
  max_temp_c : Option ℚ
  min_temp_c : Option ℚ
  precip_cm : Option ℚ
deriving DecidableEq

/-- SQL `AVG` over a column with NULLs: NULLs are skipped; an empty or
all-NULL column yields NULL (semantics of the `func.avg` call in
`src/compute_stats.py`). -/
def sqlAvg (vs : List (Option ℚ)) : Option ℚ :=
  let nn := vs.filterMap id
  if nn.isEmpty then none else some (nn.sum / (nn.length : ℚ))

/-- SQL `SUM` over a column with NULLs: NULLs are skipped; an empty or
all-NULL column yields NULL (semantics of the `func.sum` call in
`src/compute_stats.py`). -/
def sqlSum (vs : List (Option ℚ)) : Option ℚ :=
  let nn := vs.filterMap id
  if nn.isEmpty then none else some nn.sum

/-- One `weather_stats` row produced by `compute_stats.main`. -/
structure StatsRow where
  station_id : List Char
  year : Int
  avg_max_temp_c : Option ℚ
  avg_min_temp_c : Option ℚ
  total_precip_cm : Option ℚ
deriving DecidableEq

/-- The `(station_id, year)` group of the aggregation query's `GROUP BY`. -/
def groupRows (rows : List WeatherRow) (sid : List Char) (y : Int) : List WeatherRow :=
  rows.filter (fun r => decide (r.station_id = sid) && decide (r.pdate.year = y))

/-- Embeds the aggregation query in `compute_stats.main` (lines 56–96) for
one `(station_id, year)` group: `AVG(max_temp_c)`, `AVG(min_temp_c)`,
`SUM(precip_cm)` over the group's rows. -/
def statsFor (rows : List WeatherRow) (sid : List Char) (y : Int) : StatsRow :=
  let g := groupRows rows sid y
  { station_id := sid
    year := y
    avg_max_temp_c := sqlAvg (g.map (fun r => r.max_temp_c))
    avg_min_temp_c := sqlAvg (g.map (fun r => r.min_temp_c))
    total_precip_cm := sqlSum (g.map (fun r => r.precip_cm)) }

/-- First-`some` choice on options (SQL "existing row else incoming",
"last write else prior state"). -/
def orElseO (a b : Option Obs) : Option Obs :=
  match a with
  | some v => some v
  | none => b

/-- Loop invariant of the Batch Writer: the cumulative upsert counter equals
the number of rows flushed, and (for a positive batch size) the buffer stays
strictly below the threshold while every flushed batch is exactly full. -/
def InvB (ce : Nat) (st : IngestState) : Prop :=
  st.upserts = st.flushed.flatten.length ∧
  (0 < ce → st.batch.length < ce ∧ ∀ b ∈ st.flushed, b.length = ce)

/-- Follows the spec's words for claim C4 (not the code): reject exactly
when there are fewer than 4 tab-separated fields or the first field itself
is not exactly 8 decimal digits (no whitespace stripping). -/
def specLineRejects (line : List Char) : Bool :=
  let parts := (rstripNL line).splitOn '\t'
  decide (parts.length < 4) ||
    !(decide ((parts.getD 0 []).length = 8) && (parts.getD 0 []).all isDigitChar)

/-- A concrete input line whose date field carries a leading space:
`" 20200101\t1\t2\t3"`. -/
def spacedDateLine : List Char :=
  [' ', '2', '0', '2', '0', '0', '1', '0', '1', '\t', '1', '\t', '2', '\t', '3']

/-- A concrete observation key for the upsert examples. -/
def exKey : ObsKey :=
  (['s'], ['2', '0', '2', '0', '-', '0', '1', '-', '0', '1'])

/-- The measurement values already stored under `exKey`. -/
def exOld : Obs :=
  ⟨some 1, some 2, some 3⟩

/-- Different incoming measurement values for the same key. -/
def exNew : Obs :=
  ⟨some 4, some 5, some 6⟩

/-- A store already holding `exOld` under `exKey`. -/
def exDb : WeatherDB :=
  fun k => if k = exKey then some exOld else none

/-- A write sequence hitting `exKey` twice, `exNew` last. -/
def exRows : List (ObsKey × Obs) :=
  [(exKey, exOld), (exKey, exNew)]

/-- A run whose weather insert raises a storage error (identity 7) after a
successful guard check. -/
def errOutcomes : DbOutcomes :=
  ⟨Except.ok false, Except.error 7, Except.ok 0, Except.ok ()⟩

/-- The station-year observations `[(max=10, min=0), (max=null, min=5)]`
with all precipitation values null, from the spec's aggregation example. -/
def exStatRows : List WeatherRow :=
  [⟨['s'], ⟨1985, 1, 1⟩, some 10, some 0, none⟩,
   ⟨['s'], ⟨1985, 2, 1⟩, none, some 5, none⟩]

/-- Pointwise reading of a `DO UPDATE` upsert run: a key holds the last
value written for it, else its prior content. -/
theorem applyUpdates_apply (rows : List (ObsKey × Obs)) :
    ∀ (db : WeatherDB) (k : ObsKey),
      applyUpdates db rows k = orElseO (lastWrite k rows) (db k) := by
  induction rows with
  | nil =>
      intro db k
      simp [applyUpdates, lastWrite, orElseO]
  | cons r rs ih =>
      intro db k
      have step : applyUpdates db (r :: rs) = applyUpdates (upsertUpdate db r.1 r.2) rs := rfl
      rw [step, ih]
      cases hl : lastWrite k rs with
      | some v => simp [lastWrite, hl, orElseO]
      | none =>
          rcases eq_or_ne r.1 k with h | h
          · subst h
            simp [lastWrite, hl, orElseO, upsertUpdate]
          · simp [lastWrite, hl, orElseO, upsertUpdate, Ne.symm h, h]

/-- Pointwise reading of a `DO NOTHING` insert run: a key keeps its prior
content, else receives the first value written for it. -/
theorem applyNothings_apply (rows : List (ObsKey × Obs)) :
    ∀ (db : WeatherDB) (k : ObsKey),
      applyNothings db rows k = orElseO (db k) (firstWrite k rows) := by
  induction rows with
  | nil =>
      intro db k
      cases hdb : db k <;> simp [applyNothings, firstWrite, orElseO, hdb]
  | cons r rs ih =>
      intro db k
      have step : applyNothings db (r :: rs) = applyNothings (upsertNothing db r.1 r.2) rs := rfl
      rw [step, ih]
      rcases eq_or_ne r.1 k with h | h
      · subst h
        cases hdb : db r.1 with
        | some o => simp [firstWrite, upsertNothing, hdb, orElseO]
        | none => simp [firstWrite, upsertNothing, hdb, orElseO]
      · simp [firstWrite, upsertNothing, Ne.symm h, h, orElseO]

/-- Counterexample for C1: the app-module insert path
(`ingest_weather` in `src/app/ingest_weather.py`, `ON CONFLICT DO NOTHING`)
does NOT overwrite on a key collision — the stored row keeps its old
measurement values, so "never skip-on-conflict" fails on this write path. -/
theorem upsert_conflict_policy_counterexample :
    upsertNothing exDb exKey exNew exKey = some exOld ∧ some exOld ≠ some exNew := by
  constructor
  · rfl
  · norm_num [exOld, exNew]

/-- C1 (amended): on a `(station_id, date)` collision, the standalone
script's upsert (`upsert_sql`, `ON CONFLICT DO UPDATE`) overwrites all three
measurement fields with the incoming values — last write wins — while the
app-module insert (`ON CONFLICT DO NOTHING`) keeps the existing row
unchanged and only fills keys that were absent (first write wins). -/
theorem upsert_conflict_policy_amended (db : WeatherDB) (rows : List (ObsKey × Obs))
    (k : ObsKey) (v o : Obs) :
    (upsertUpdate db k v k = some v) ∧
    (lastWrite k rows = some v → applyUpdates db rows k = some v) ∧
    (db k = some o → upsertNothing db k v k = some o) ∧
    (db k = some o → applyNothings db rows k = some o) ∧
    (db k = none → applyNothings db rows k = firstWrite k rows) := by
  refine ⟨by simp [upsertUpdate], ?_, ?_, ?_, ?_⟩
  · intro h
    rw [applyUpdates_apply, h]
    rfl
  · intro h
    simp [upsertNothing, h]
  · intro h
    rw [applyNothings_apply, h]
    rfl
  · intro h
    rw [applyNothings_apply, h]
    rfl

/-- Witness for C1 (amended) at a concrete store and write sequence. -/
theorem upsert_conflict_policy_amended_witness :
    lastWrite exKey exRows = some exNew ∧
    applyUpdates exDb exRows exKey = some exNew ∧
    exDb exKey = some exOld ∧
    upsertNothing exDb exKey exNew exKey = some exOld ∧
    applyNothings exDb exRows exKey = some exOld := by
  have h := upsert_conflict_policy_amended exDb exRows exKey exNew exOld
  exact ⟨rfl, h.2.1 rfl, rfl, h.2.2.1 rfl, h.2.2.2.1 rfl⟩

/-- C7: re-running ingestion over the same input lines is idempotent: a
second pass through either upsert path leaves the Observation store — and
hence every row count over any key set — exactly as after the first pass. -/
theorem ingestion_idempotent (db : WeatherDB) (lines : List (List Char × List Char)) :
    applyUpdates (applyUpdates db (rowsOfLines lines)) (rowsOfLines lines)
      = applyUpdates db (rowsOfLines lines) ∧
    applyNothings (applyNothings db (rowsOfLines lines)) (rowsOfLines lines)
      = applyNothings db (rowsOfLines lines) ∧
    ∀ ks : List ObsKey,
      countRows ks (applyUpdates (applyUpdates db (rowsOfLines lines)) (rowsOfLines lines))
        = countRows ks (applyUpdates db (rowsOfLines lines)) := by
  have h1 : applyUpdates (applyUpdates db (rowsOfLines lines)) (rowsOfLines lines)
      = applyUpdates db (rowsOfLines lines) := by
    funext k
    rw [applyUpdates_apply, applyUpdates_apply]
    cases lastWrite k (rowsOfLines lines) <;> simp [orElseO]
  refine ⟨h1, ?_, ?_⟩
  · funext k
    rw [applyNothings_apply, applyNothings_apply]
    cases hdb : db k <;> cases hf : firstWrite k (rowsOfLines lines) <;> simp [orElseO]
  · intro ks
    rw [h1]

/-- Counterexample for C5: with no marker row and the force flag unset, a
store whose Observation table holds one row but whose YearlyStat table is
empty makes the app guard report "run" — the spec's Observation-only probe
says "skip" — so the fallback probe does not consult the Observation store
only. -/
theorem guard_fallback_counterexample :
    specSkipNoMarker 1 = true ∧ already_ingested none 1 0 = false := by
  decide

/-- C5 (amended): with no marker row and the force flag unset, the
standalone script's guard skips exactly when the Observation store holds at
least one row, while the app guard's fallback skips exactly when the
Observation store AND the YearlyStat store each hold at least one row. -/
theorem guard_fallback_amended (wc sc : Nat) :
    (scriptShouldSkip false wc = true ↔ 0 < wc) ∧
    (already_ingested none wc sc = true ↔ (0 < wc ∧ 0 < sc)) := by
  constructor <;> simp [scriptShouldSkip, already_ingested]

/-- Counterexample for C6: with `FORCE_INGEST=1` set, the guard that reads
the completion marker (`already_ingested`, the one `run_startup_ingestion`
consults) still answers skip on a marker row with `completed=true` — it
takes no force flag at all, so the flag cannot change its answer — refuting
"the guard never answers skip regardless of a completed=true marker". -/
theorem force_flag_counterexample :
    forceFlagOf ['1'] = true ∧ already_ingested (some true) 0 0 = true := by
  decide

/-- C6 (amended): whenever the `FORCE_INGEST` flag parses as set, the
standalone script's guard never answers skip, whatever the existing row
count of the Observation store (that guard consults no marker); the app
startup guard, however, consults no force flag: it answers skip whenever
the marker row exists with `completed=true`, independently of the flag and
of both row counts. -/
theorem force_flag_amended (s : List Char) (wc sc wc' sc' : Nat)
    (h : forceFlagOf s = true) :
    scriptShouldSkip (forceFlagOf s) wc = false ∧
    already_ingested (some true) wc sc = true ∧
    already_ingested (some true) wc sc = already_ingested (some true) wc' sc' := by
  rw [h]
  exact ⟨by simp [scriptShouldSkip], rfl, rfl⟩

/-- Witness for C6 (amended): `FORCE_INGEST=1` forces a run of the script
over a populated store, while the app guard skips on a completed marker. -/
theorem force_flag_amended_witness :
    forceFlagOf ['1'] = true ∧
    scriptShouldSkip (forceFlagOf ['1']) 1000000 = false ∧
    already_ingested (some true) 1000000 0 = true := by
  have h := force_flag_amended ['1'] 1000000 0 7 9 (by decide)
  exact ⟨by decide, h.1, h.2.1⟩

/-- C10: a marker row present with `completed=false` makes the guard answer
"run" directly, independently of the Observation and YearlyStat row counts
(the row-count fallback is not consulted). -/
theorem marker_false_always_runs (wc sc wc' sc' : Nat) :
    already_ingested (some false) wc sc = false ∧
    already_ingested (some false) wc sc = already_ingested (some false) wc' sc' :=
  ⟨rfl, rfl⟩

/-- C8: every `run_startup_ingestion` call closes the session; a storage
error anywhere in the guard/load/write/mark sequence rolls the transaction
back, leaves the completion marker unset and re-raises that same error; and
the marker is written with `completed=true` exactly when the whole sequence
ran without error past a negative guard check. -/
theorem startup_ingestion_error_handling (o : DbOutcomes) :
    (run_startup_ingestion o).closed = true ∧
    (∀ e : Nat, (run_startup_ingestion o).outcome = Except.error e →
      (run_startup_ingestion o).rolledBack = true ∧
      (run_startup_ingestion o).markerWritten = false ∧
      (o.alreadyRes = Except.error e ∨ o.ingestWRes = Except.error e ∨
        o.ingestSRes = Except.error e ∨ o.markRes = Except.error e)) ∧
    ((run_startup_ingestion o).markerWritten = true ↔
      (o.alreadyRes = Except.ok false ∧ (∃ n, o.ingestWRes = Except.ok n) ∧
        (∃ n, o.ingestSRes = Except.ok n) ∧ o.markRes = Except.ok ())) ∧
    ((run_startup_ingestion o).markerWritten = true →
      (run_startup_ingestion o).outcome = Except.ok () ∧
      (run_startup_ingestion o).rolledBack = false) := by
  obtain ⟨a, w, s, m⟩ := o
  cases a with
  | error e => simp [run_startup_ingestion]
  | ok b =>
      cases b with
      | true => simp [run_startup_ingestion]
      | false =>
          cases w with
          | error e => simp [run_startup_ingestion]
          | ok nw =>
              cases s with
              | error e => simp [run_startup_ingestion]
              | ok ns =>
                  cases m with
                  | error e => simp [run_startup_ingestion]
                  | ok u => cases u; simp [run_startup_ingestion]

/-- Witness for C8 at a run whose weather insert raises error 7: rollback
happened, the session was closed, and the marker stayed unset. -/
theorem startup_ingestion_error_handling_witness :
    (run_startup_ingestion errOutcomes).rolledBack = true ∧
    (run_startup_ingestion errOutcomes).markerWritten = false ∧
    (run_startup_ingestion errOutcomes).closed = true := by
  have h := startup_ingestion_error_handling errOutcomes
  exact ⟨(h.2.1 7 (by decide)).1, (h.2.1 7 (by decide)).2.1, h.1⟩

/-- C2: `_parse_int` maps the empty string, the sentinel `-9999` and any
unparseable string to null, and any other integer string to its value; the
temperature conversion divides by 10 and the precipitation conversion by
100 overall (raw 123 → 12.3 °C, raw 100 → 1.0 cm); all functions involved
are total, so the conversion never raises. -/
theorem parse_convert_spec (s : List Char) :
    (_parse_int [] = none) ∧
    (_parse_int sentinelChars = none) ∧
    (pyIntCore (pyStrip s) = none → _parse_int s = none) ∧
    (∀ i : Int, pyIntCore (pyStrip s) = some i → pyStrip s ≠ sentinelChars →
      _parse_int s = some i) ∧
    (∀ i : Int, tempOfRaw (some i) = some ((i : ℚ) / 10)) ∧
    (∀ i : Int, precipOfRaw (some i) = some ((i : ℚ) / 100)) ∧
    (tempOfRaw (some 123) = some 12.3) ∧
    (precipOfRaw (some 100) = some 1) ∧
    (_parse_int s = none ∨ ∃ i : Int, _parse_int s = some i) := by
  refine ⟨by decide, by decide, ?_, ?_, ?_, ?_, ?_, ?_, ?_⟩
  · intro h
    by_cases he : pyStrip s = []
    · simp [_parse_int, he]
    · by_cases hsent : pyStrip s = sentinelChars
      · simp [_parse_int, he, hsent]
      · simp [_parse_int, he, hsent, h]
  · intro i h hsent
    by_cases he : pyStrip s = []
    · rw [he] at h
      simp [pyIntCore] at h
    · simp [_parse_int, he, hsent, h]
  · intro i
    simp [tempOfRaw]
  · intro i
    simp [precipOfRaw, div_div]
    norm_num
  · norm_num [tempOfRaw]
  · norm_num [precipOfRaw]
  · cases h : _parse_int s with
    | none => exact Or.inl rfl
    | some i => exact Or.inr ⟨i, rfl⟩

/-- Witness for C2 at concrete fields: `" 123 "` parses to 123 and converts
to 12.3 °C, while `"abc"` is unparseable and yields null. -/
theorem parse_convert_spec_witness :
    pyIntCore (pyStrip [' ', '1', '2', '3', ' ']) = some 123 ∧
    pyStrip [' ', '1', '2', '3', ' '] ≠ sentinelChars ∧
    _parse_int [' ', '1', '2', '3', ' '] = some 123 ∧
    pyIntCore (pyStrip ['a', 'b', 'c']) = none ∧
    _parse_int ['a', 'b', 'c'] = none := by
  refine ⟨by decide, by decide, ?_, by decide, ?_⟩
  · exact (parse_convert_spec [' ', '1', '2', '3', ' ']).2.2.2.1 123 (by decide) (by decide)
  · exact (parse_convert_spec ['a', 'b', 'c']).2.2.1 (by decide)

/-- C3: for every `(station_id, year)` group, the computed yearly averages
are the arithmetic mean of the group's non-null values and the total is the
sum of the non-null values; a group whose values are all null yields null,
never 0.0 and never an error (the functions are total). -/
theorem yearly_stats_null_skipping (rows : List WeatherRow) (sid : List Char) (y : Int) :
    ((groupRows rows sid y).filterMap (fun r => r.max_temp_c) = [] →
      (statsFor rows sid y).avg_max_temp_c = none) ∧
    (∀ l : List ℚ, (groupRows rows sid y).filterMap (fun r => r.max_temp_c) = l → l ≠ [] →
      (statsFor rows sid y).avg_max_temp_c = some (l.sum / (l.length : ℚ))) ∧
    ((groupRows rows sid y).filterMap (fun r => r.min_temp_c) = [] →
      (statsFor rows sid y).avg_min_temp_c = none) ∧
    (∀ l : List ℚ, (groupRows rows sid y).filterMap (fun r => r.min_temp_c) = l → l ≠ [] →
      (statsFor rows sid y).avg_min_temp_c = some (l.sum / (l.length : ℚ))) ∧
    ((groupRows rows sid y).filterMap (fun r => r.precip_cm) = [] →
      (statsFor rows sid y).total_precip_cm = none) ∧
    (∀ l : List ℚ, (groupRows rows sid y).filterMap (fun r => r.precip_cm) = l → l ≠ [] →
      (statsFor rows sid y).total_precip_cm = some l.sum) := by
  have emax : ((groupRows rows sid y).map (fun r => r.max_temp_c)).filterMap id
      = (groupRows rows sid y).filterMap (fun r => r.max_temp_c) := by
    simp [List.filterMap_map]
  have emin : ((groupRows rows sid y).map (fun r => r.min_temp_c)).filterMap id
      = (groupRows rows sid y).filterMap (fun r => r.min_temp_c) := by
    simp [List.filterMap_map]
  have epr : ((groupRows rows sid y).map (fun r => r.precip_cm)).filterMap id
      = (groupRows rows sid y).filterMap (fun r => r.precip_cm) := by
    simp [List.filterMap_map]
  refine ⟨?_, ?_, ?_, ?_, ?_, ?_⟩
  · intro h
    simp [statsFor, sqlAvg, emax, h]
  · intro l hl hne
    cases l with
    | nil => exact absurd rfl hne
    | cons a t => simp [statsFor, sqlAvg, emax, hl]
  · intro h
    simp [statsFor, sqlAvg, emin, h]
  · intro l hl hne
    cases l with
    | nil => exact absurd rfl hne
    | cons a t => simp [statsFor, sqlAvg, emin, hl]
  · intro h
    simp [statsFor, sqlSum, epr, h]
  · intro l hl hne
    cases l with
    | nil => exact absurd rfl hne
    | cons a t => simp [statsFor, sqlSum, epr, hl]

/-- Witness for C3 at the spec's example group
`[(max=10, min=0), (max=null, min=5)]` with all-null precipitation:
avg_max = 10.0 (not 5.0), avg_min = 2.5, total_precip = null. -/
theorem yearly_stats_null_skipping_witness :
    (statsFor exStatRows ['s'] 1985).avg_max_temp_c = some 10 ∧
    (statsFor exStatRows ['s'] 1985).avg_min_temp_c = some (5 / 2) ∧
    (statsFor exStatRows ['s'] 1985).total_precip_cm = none := by
  have h := yearly_stats_null_skipping exStatRows ['s'] 1985
  refine ⟨?_, ?_, ?_⟩
  · have h2 := h.2.1 [(10 : ℚ)]
      (by norm_num [groupRows, exStatRows, List.filterMap_cons]) (by simp)
    rw [h2]
    norm_num
  · have h4 := h.2.2.2.1 [(0 : ℚ), (5 : ℚ)]
      (by norm_num [groupRows, exStatRows, List.filterMap_cons]) (by simp)
    rw [h4]
    norm_num
  · exact h.2.2.2.2.1 (by norm_num [groupRows, exStatRows, List.filterMap_cons])

/-- Effect of the whole line loop on the counters, the written rows, and
the Batch Writer invariant: lines are all counted, rejected lines are all
skipped, and the flushed batches followed by the buffer are exactly the
accepted rows in input order. -/
theorem ingestLoop_spec (ce : Nat) :
    ∀ (lines : List (List Char × List Char)) (st : IngestState),
      (ingestLoop ce st lines).totalLines = st.totalLines + lines.length ∧
      (ingestLoop ce st lines).skipped
        = st.skipped + lines.countP (fun p => (parseLine p.1 p.2).isNone) ∧
      (ingestLoop ce st lines).flushed.flatten ++ (ingestLoop ce st lines).batch
        = st.flushed.flatten ++ st.batch ++ lines.filterMap (fun p => parseLine p.1 p.2) ∧
      (InvB ce st → InvB ce (ingestLoop ce st lines)) := by
  intro lines
  induction lines with
  | nil =>
      intro st
      refine ⟨by simp [ingestLoop], by simp [ingestLoop], by simp [ingestLoop], ?_⟩
      intro h
      simpa [ingestLoop] using h
  | cons p rest ih =>
      intro st
      have hstep : ingestLoop ce st (p :: rest) = ingestLoop ce (stepLine ce st p) rest := rfl
      cases hp : parseLine p.1 p.2 with
      | none =>
          have hs : stepLine ce st p
              = { st with totalLines := st.totalLines + 1, skipped := st.skipped + 1 } := by
            simp [stepLine, hp]
          rw [hstep, hs]
          obtain ⟨iht, ihs, ihj, ihi⟩ :=
            ih { st with totalLines := st.totalLines + 1, skipped := st.skipped + 1 }
          refine ⟨?_, ?_, ?_, ?_⟩
          · rw [iht]
            simp
            omega
          · rw [ihs]
            simp [List.countP_cons, hp]
            omega
          · rw [ihj]
            simp [List.filterMap_cons, hp]
          · intro hI
            exact ihi ⟨hI.1, hI.2⟩
      | some row =>
          by_cases hflush : ce ≤ st.batch.length + 1
          · have hs : stepLine ce st p
                = { st with
                      totalLines := st.totalLines + 1
                      batch := []
                      flushed := st.flushed ++ [st.batch ++ [row]]
                      upserts := st.upserts + (st.batch.length + 1) } := by
              simp [stepLine, hp, hflush]
            rw [hstep, hs]
            obtain ⟨iht, ihs, ihj, ihi⟩ :=
              ih { st with
                     totalLines := st.totalLines + 1
                     batch := []
                     flushed := st.flushed ++ [st.batch ++ [row]]
                     upserts := st.upserts + (st.batch.length + 1) }
            refine ⟨?_, ?_, ?_, ?_⟩
            · rw [iht]
              simp
              omega
            · rw [ihs]
              simp [List.countP_cons, hp]
            · rw [ihj]
              simp [List.filterMap_cons, hp, List.flatten_append, List.append_assoc]
            · intro hI
              apply ihi
              obtain ⟨hu, hrest⟩ := hI
              refine ⟨?_, ?_⟩
              · simp [List.flatten_append, hu]
              · intro h0
                refine ⟨by simpa using h0, ?_⟩
                intro b hb
                rcases List.mem_append.mp hb with hb' | hb'
                · exact (hrest h0).2 b hb'
                · have hlt : st.batch.length < ce := (hrest h0).1
                  have hb'' : b = st.batch ++ [row] := by simpa using hb'
                  rw [hb'']
                  simp
                  omega
          · have hs : stepLine ce st p
                = { st with totalLines := st.totalLines + 1, batch := st.batch ++ [row] } := by
              simp [stepLine, hp, hflush]
            rw [hstep, hs]
            obtain ⟨iht, ihs, ihj, ihi⟩ :=
              ih { st with totalLines := st.totalLines + 1, batch := st.batch ++ [row] }
            refine ⟨?_, ?_, ?_, ?_⟩
            · rw [iht]
              simp
              omega
            · rw [ihs]
              simp [List.countP_cons, hp]
            · rw [ihj]
              simp [List.filterMap_cons, hp, List.append_assoc]
            · intro hI
              apply ihi
              obtain ⟨hu, hrest⟩ := hI
              refine ⟨by simpa using hu, ?_⟩
              intro h0
              refine ⟨?_, fun b hb => (hrest h0).2 b hb⟩
              simp
              omega

/-- Effect of the final flush: counters for lines are untouched, the buffer
empties, its rows move to the end of the flushed sequence, and the upsert
counter absorbs the final batch size. -/
theorem finishRun_spec (st : IngestState) :
    (finishRun st).totalLines = st.totalLines ∧
    (finishRun st).skipped = st.skipped ∧
    (finishRun st).batch = [] ∧
    (finishRun st).flushed.flatten = st.flushed.flatten ++ st.batch ∧
    (finishRun st).upserts = st.upserts + st.batch.length ∧
    (((finishRun st).flushed = st.flushed ∧ st.batch = []) ∨
      ((finishRun st).flushed = st.flushed ++ [st.batch] ∧ st.batch ≠ [])) := by
  by_cases h : st.batch = []
  · simp [finishRun, h]
  · simp [finishRun, h, List.flatten_append]

/-- Accepted plus rejected lines exhaust the input. -/
theorem countP_parse_total (lines : List (List Char × List Char)) :
    lines.countP (fun p => (parseLine p.1 p.2).isSome)
      + lines.countP (fun p => (parseLine p.1 p.2).isNone) = lines.length := by
  induction lines with
  | nil => simp
  | cons p rest ih =>
      cases hp : parseLine p.1 p.2 <;> simp [List.countP_cons, hp] <;> omega

/-- The parser rejects a line exactly under the code's reject condition. -/
theorem parseLine_eq_none_iff (station line : List Char) :
    parseLine station line = none ↔ lineRejected line = true := by
  unfold parseLine lineRejected
  by_cases h4 : ((rstripNL line).splitOn '\t').length < 4
  · simp [h4]
  · simp [h4, imp_iff_not_or]

/-- Counterexample for C4: the line `" 20200101\t1\t2\t3"` has a first
field that is NOT exactly 8 decimal digits (it carries a leading space), so
the claim says it is rejected — but the code strips the field first and
accepts the line. -/
theorem line_parser_counterexample :
    specLineRejects spacedDateLine = true ∧ (parseLine ['s'] spacedDateLine).isSome = true := by
  decide

/-- C4 (amended): the parser rejects (counts as skipped, never aborts)
exactly the lines with fewer than 4 tab-separated fields or whose first
field, after stripping surrounding whitespace, is not exactly 8 decimal
digits; every other line is accepted; and the total number of lines read
equals accepted plus rejected. -/
theorem line_parser_amended (ce : Nat) (lines : List (List Char × List Char)) :
    (runIngest ce lines).totalLines = lines.length ∧
    (runIngest ce lines).totalLines
      = lines.countP (fun p => (parseLine p.1 p.2).isSome) + (runIngest ce lines).skipped ∧
    ∀ station line : List Char, (parseLine station line = none ↔ lineRejected line = true) := by
  have L := ingestLoop_spec ce lines initState
  have F := finishRun_spec (ingestLoop ce initState lines)
  have ht : (runIngest ce lines).totalLines = lines.length := by
    show (finishRun (ingestLoop ce initState lines)).totalLines = lines.length
    rw [F.1, L.1]
    simp [initState]
  refine ⟨ht, ?_, fun station line => parseLine_eq_none_iff station line⟩
  have hsk : (runIngest ce lines).skipped
      = lines.countP (fun p => (parseLine p.1 p.2).isNone) := by
    show (finishRun (ingestLoop ce initState lines)).skipped = _
    rw [F.2.1, L.2.1]
    simp [initState]
  have hc := countP_parse_total lines
  rw [ht, hsk]
  omega

/-- C9: with a positive batch size, a whole run leaves the buffer empty,
writes exactly the accepted rows in order (each exactly once), reports a
cumulative upsert count equal to the number of accepted lines, and every
flush before the final one is exactly full while no flushed batch is
empty. -/
theorem batch_writer_flush_spec (ce : Nat) (hce : 0 < ce)
    (lines : List (List Char × List Char)) :
    (runIngest ce lines).batch = [] ∧
    (runIngest ce lines).flushed.flatten = lines.filterMap (fun p => parseLine p.1 p.2) ∧
    (runIngest ce lines).upserts = (lines.filterMap (fun p => parseLine p.1 p.2)).length ∧
    (∀ b ∈ (runIngest ce lines).flushed.dropLast, b.length = ce) ∧
    (∀ b ∈ (runIngest ce lines).flushed, b ≠ []) := by
  have L := ingestLoop_spec ce lines initState
  have hInv0 : InvB ce initState := by
    refine ⟨rfl, fun h0 => ⟨?_, ?_⟩⟩
    · simpa [initState] using h0
    · simp [initState]
  have hInv : InvB ce (ingestLoop ce initState lines) := L.2.2.2 hInv0
  have F := finishRun_spec (ingestLoop ce initState lines)
  obtain ⟨F1, F2, F3, F4, F5, F6⟩ := F
  have hjoin : (ingestLoop ce initState lines).flushed.flatten
        ++ (ingestLoop ce initState lines).batch
      = lines.filterMap (fun p => parseLine p.1 p.2) := by
    have hj := L.2.2.1
    simpa [initState] using hj
  have hfull : ∀ b ∈ (ingestLoop ce initState lines).flushed, b.length = ce :=
    (hInv.2 hce).2
  have hrun : runIngest ce lines = finishRun (ingestLoop ce initState lines) := rfl
  refine ⟨F3, ?_, ?_, ?_, ?_⟩
  · show (finishRun (ingestLoop ce initState lines)).flushed.flatten = _
    rw [F4]
    exact hjoin
  · show (finishRun (ingestLoop ce initState lines)).upserts = _
    rw [F5, hInv.1, ← hjoin]
    simp
  · intro b hb
    rw [hrun] at hb
    rcases F6 with ⟨h, _⟩ | ⟨h, _⟩
    · rw [h] at hb
      exact hfull b (List.dropLast_subset _ hb)
    · rw [h, List.dropLast_concat] at hb
      exact hfull b hb
  · intro b hb
    rw [hrun] at hb
    rcases F6 with ⟨h, _⟩ | ⟨h, hne⟩
    · rw [h] at hb
      have hlen := hfull b hb
      intro hnil
      rw [hnil] at hlen
      simp at hlen
      omega
    · rw [h] at hb
      rcases List.mem_append.mp hb with hb' | hb'
      · have hlen := hfull b hb'
        intro hnil
        rw [hnil] at hlen
        simp at hlen
        omega
      · have hb'' : b = (ingestLoop ce initState lines).batch := by simpa using hb'
        rw [hb'']
        exact hne

/-- Witness for C9 at batch size 2 over four lines, one malformed: three
rows accepted, flushed as one full batch of 2 and a final partial batch. -/
theorem batch_writer_flush_spec_witness :
    0 < 2 ∧
    (runIngest 2 [(['s'], spacedDateLine), (['s'], ['x']),
        (['s'], spacedDateLine), (['s'], spacedDateLine)]).batch = [] ∧
    (runIngest 2 [(['s'], spacedDateLine), (['s'], ['x']),
        (['s'], spacedDateLine), (['s'], spacedDateLine)]).upserts
      = ([(['s'], spacedDateLine), (['s'], ['x']), (['s'], spacedDateLine),
          (['s'], spacedDateLine)].filterMap (fun p => parseLine p.1 p.2)).length := by
  have h := batch_writer_flush_spec 2 (by decide)
    [(['s'], spacedDateLine), (['s'], ['x']), (['s'], spacedDateLine), (['s'], spacedDateLine)]
  exact ⟨by decide, h.1, h.2.2.1⟩

end Weather
